import Mathlib

/-
Verification of the synthetic-data generation pipeline of synthetic_data.py
(template matching, label extraction, filter selection, compositing, and the
dataset assembler's startup checks) against its natural-language specification.

Modelling conventions:
* a PIL/numpy greyscale image is a width/height pair with a pixel function
  (values are the 0..255 intensities, modelled as arbitrary naturals);
* numpy float64 arithmetic on pixel statistics is modelled exactly over the
  rationals; NaN (produced by the zero-variance division) is modelled
  explicitly, see nccScore;
* python exceptions (numpy IndexError / ValueError, random.randint on an
  empty range, np.zeros on a negative shape, argmax of an empty array) are
  modelled as Option.none results;
* python exit() raises SystemExit(None), which terminates the process with
  exit status 0; runMain records that status explicitly.
-/

set_option maxRecDepth 4000

namespace SynthData

/-- Greyscale image as used throughout synthetic_data.py after convert("L"):
a 2D grid with integer width and height and an intensity per (x, y) pixel,
x to the right and y downwards (PIL coordinates; the numpy array view indexes
the same grid as arr[y, x]). Reads outside the w by h range never influence
the modelled computations unless stated in a doc comment. -/
structure Img where
  width : ℕ
  height : ℕ
  pix : ℕ → ℕ → ℕ

/-- Bounding box as returned by get_template_match: top-left and bottom-right
corners in (x, y) pixel coordinates. -/
structure BBox where
  topLeft : ℕ × ℕ
  bottomRight : ℕ × ℕ
deriving DecidableEq

/-- Enumeration of the template pixel coordinates (x, y), row by row, matching
the row-major order in which numpy reduces a 2D array. -/
def tplPixels (t : Img) : List (ℕ × ℕ) :=
  (List.range t.height).flatMap fun y => (List.range t.width).map fun x => (x, y)

/-- Sum of an integer-valued function over a list of pixel coordinates. -/
def zsum (l : List (ℕ × ℕ)) (f : ℕ → ℕ → ℤ) : ℤ :=
  (l.map fun p => f p.1 p.2).sum

/-- Sum of the template intensities, as an integer. -/
def tplSum (t : Img) : ℤ := zsum (tplPixels t) fun x y => (t.pix x y : ℤ)

/-- Sum of the image intensities over the window of template size whose
top-left image pixel is (px, py). -/
def patchSum (img t : Img) (px py : ℕ) : ℤ :=
  zsum (tplPixels t) fun x y => (img.pix (px + x) (py + y) : ℤ)

/-- n^3 times the population variance of the template (n its pixel count):
the sum of (n * pixel - sum)^2. Zero exactly when np.std of the template is
zero. -/
def tplVarN (t : Img) : ℤ :=
  zsum (tplPixels t) fun x y =>
    ((t.width * t.height : ℕ) * (t.pix x y : ℤ) - tplSum t) ^ 2

/-- n^3 times the population variance of the window at (px, py). -/
def patchVarN (img t : Img) (px py : ℕ) : ℤ :=
  zsum (tplPixels t) fun x y =>
    ((t.width * t.height : ℕ) * (img.pix (px + x) (py + y) : ℤ) - patchSum img t px py) ^ 2

/-- n^2 times the sum of products of deviations of the window at (px, py)
and the template. -/
def covN (img t : Img) (px py : ℕ) : ℤ :=
  zsum (tplPixels t) fun x y =>
    ((t.width * t.height : ℕ) * (img.pix (px + x) (py + y) : ℤ) - patchSum img t px py) *
      ((t.width * t.height : ℕ) * (t.pix x y : ℤ) - tplSum t)

/-- One entry of the cross-correlation array of get_template_match
(synthetic_data.py lines 303-315) for the sliding-window position whose
top-left image pixel is (px, py).

The code computes sum(((patch - patch_mean) / patch_std) * ((template -
template_mean) / template_std)), which equals the real number
covN * n / sqrt(patchVarN * tplVarN). A zero standard deviation makes the
division produce NaN in numpy, modelled as none; this happens exactly when
tplVarN or patchVarN vanishes. A finite score is represented by the exact
fraction sign(covN) * covN^2 * n^2 / (patchVarN * tplVarN) as a
numerator/denominator pair with positive denominator: this is the image of
the score under the strictly monotone map sending s to sign(s) * s^2, so it
preserves every comparison (and every tie) that np.argmax performs. -/
def nccScore (img t : Img) (px py : ℕ) : Option (ℤ × ℤ) :=
  if tplVarN t = 0 ∨ patchVarN img t px py = 0 then none
  else
    some
      (if 0 ≤ covN img t px py then
        (covN img t px py ^ 2 * ((t.width * t.height : ℕ) : ℤ) ^ 2,
          patchVarN img t px py * tplVarN t)
      else
        (-(covN img t px py ^ 2 * ((t.width * t.height : ℕ) : ℤ) ^ 2),
          patchVarN img t px py * tplVarN t))

/-- Comparison of two finite score values num/den with positive
denominators, by cross-multiplication. -/
def pLe (x y : ℤ × ℤ) : Prop := x.1 * y.2 ≤ y.1 * x.2

instance (x y : ℤ × ℤ) : Decidable (pLe x y) := by unfold pLe; infer_instance

/-- IEEE comparison a <= b on float scores: false whenever either side is
NaN, the exact comparison of the represented values otherwise. -/
def fle : Option (ℤ × ℤ) → Option (ℤ × ℤ) → Bool
  | some a, some b => decide (pLe a b)
  | _, _ => false

/-- Loop of numpy's argmax over the tail of the array: the running best is
replaced exactly when not (new <= best) under IEEE comparison, and the scan
stops as soon as the best becomes NaN (NaN is treated as maximal, so the
first NaN wins). cur is the value at index best, i the index of the head of
the remaining list. -/
def npArgmaxGo : List (Option (ℤ × ℤ)) → Option (ℤ × ℤ) → ℕ → ℕ → ℕ
  | [], _, best, _ => best
  | v :: vs, cur, best, i =>
    if fle v cur then npArgmaxGo vs cur best (i + 1)
    else if v = none then i
    else npArgmaxGo vs v i (i + 1)

/-- np.argmax over a float array flattened in row-major order: index of the
first occurrence of the maximum, with NaN maximal. The empty case never
reaches the kernel of the model: get_template_match returns none first
(np.argmax raises on an empty array). -/
def npArgmax : List (Option (ℤ × ℤ)) → ℕ
  | [] => 0
  | v :: vs => if v = none then 0 else npArgmaxGo vs v 0 1

/-- The flattened cross-correlation array match of get_template_match in
row-major order: position k corresponds to the window at row k / mw and
column k % mw, where mw is the number of window columns. -/
def matchScores (img t : Img) : List (Option (ℤ × ℤ)) :=
  (List.range ((img.height - t.height + 1) * (img.width - t.width + 1))).map fun k =>
    nccScore img t (k % (img.width - t.width + 1)) (k / (img.width - t.width + 1))

/-- get_template_match (synthetic_data.py lines 270-321). Converts both
inputs to greyscale (already the Img representation), scores every window
position by normalized cross-correlation, takes np.argmax of the flattened
score array and rebuilds the (top_left, bottom_right) box from the unraveled
index. When the template exceeds the image in either dimension the match
array has a nonpositive dimension and the code raises (np.zeros rejects a
negative shape; np.argmax rejects an empty array): modelled as none. -/
def get_template_match (img t : Img) : Option BBox :=
  if img.height < t.height ∨ img.width < t.width then none
  else
    let mw := img.width - t.width + 1
    let k := npArgmax (matchScores img t)
    some ⟨(k % mw, k / mw), (k % mw + t.width, k / mw + t.height)⟩

/-- check_incorrect_match (synthetic_data.py lines 411-433): counts, over the
given x and y coordinate lists, the pixels of the greyscale image at
(x + top_left.x, y + top_left.y) satisfying the condition. -/
def check_incorrect_match (xr yr : List ℕ) (img : Img) (cond : ℕ → Bool)
    (topLeft : ℕ × ℕ) : ℕ :=
  (xr.flatMap fun x => yr.map fun y => img.pix (x + topLeft.1) (y + topLeft.2)).countP cond

/-- find_mask (synthetic_data.py lines 458-476): binary mask of the same size
as the image, 1 exactly where the greyscale pixel satisfies the condition. -/
def find_mask (img : Img) (cond : ℕ → Bool) : Img :=
  ⟨img.width, img.height, fun x y => if cond (img.pix x y) then 1 else 0⟩

/-- PIL Image.new with a constant fill (used with black fill (0,0,0) for the
combined canvas of get_selected_filter, line 142). -/
def imageNew (w h c : ℕ) : Img := ⟨w, h, fun _ _ => c⟩

/-- PIL Image.crop((l, u, r, b)): an (r-l) by (b-u) image reading the source
at offset (l, u); pixels beyond the source bounds are padded with 0, and a
box with r < l or b < u is clamped to an empty image (the natural subtraction
performs the clamp), matching the C-level ImagingCrop behaviour under which
the repository's selector demonstrably runs (a degenerate bridge strip must
paste nothing, see get_selected_filter lines 152-165). -/
def cropImg (img : Img) (l u r b : ℕ) : Img :=
  ⟨r - l, b - u, fun x y =>
    if l + x < img.width ∧ u + y < img.height then img.pix (l + x) (u + y) else 0⟩

/-- PIL Image.paste(im, (ox, oy)) onto base: pixels covered by im are
replaced, everything else kept; im is clipped to the base canvas. -/
def pasteImg (base im : Img) (ox oy : ℕ) : Img :=
  ⟨base.width, base.height, fun x y =>
    if ox ≤ x ∧ x < ox + im.width ∧ oy ≤ y ∧ y < oy + im.height then
      im.pix (x - ox) (y - oy)
    else base.pix x y⟩

/-- Dark-pixel count of a cylinder candidate (get_selected_filter lines
128-132): pixels of intensity below 60 inside the candidate's matched
bounding box, counted on the photograph itself. -/
def cylinderGate (img : Img) (tlc brc : ℕ × ℕ) : ℕ :=
  check_incorrect_match (List.range (brc.1 - tlc.1)) (List.range (brc.2 - tlc.2))
    img (fun v => decide (v < 60)) tlc

/-- Combined canvas built after a cylinder candidate passes the dark-pixel
gate (get_selected_filter lines 136-165): union box of the cutoff match
(tlf, brf) and the cylinder match (tlc, brc), black canvas of that size, the
two crops pasted at their relative offsets, then the right-side bridge strip
(when the cutoff is not at x = 0 and not adjacent to the cylinder) and the
left-side bridge strip (under the analogous guard). -/
def buildCombined (img : Img) (tlf brf tlc brc : ℕ × ℕ) : Img :=
  let tlcc := (min tlf.1 tlc.1, min tlf.2 tlc.2)
  let brcc := (max brf.1 brc.1, max brf.2 brc.2)
  let width := brcc.1 - tlcc.1
  let height := brcc.2 - tlcc.2
  let c0 := imageNew width height 0
  let c1 := pasteImg c0 (cropImg img tlf.1 tlf.2 brf.1 brf.2) (tlf.1 - tlcc.1) (tlf.2 - tlcc.2)
  let c2 := pasteImg c1 (cropImg img tlc.1 tlc.2 brc.1 brc.2) (tlc.1 - tlcc.1) (tlc.2 - tlcc.2)
  let c3 :=
    if tlf.1 ≠ 0 ∧ brf.1 ≠ tlc.1 then
      pasteImg c2 (cropImg img brf.1 tlc.2 tlc.1 brc.2) (brf.1 - tlcc.1) (tlc.2 - tlcc.2)
    else c2
  if brf.1 ≠ 0 ∧ tlf.1 ≠ brc.1 then
    pasteImg c3 (cropImg img brc.1 tlc.2 tlf.1 brc.2) (brc.1 - tlcc.1) (tlc.2 - tlcc.2)
  else c3

/-- Final validity count on the combined canvas (get_selected_filter lines
167-170): near-black pixels, intensity below 1, over the whole canvas. -/
def combinedBlackCount (c : Img) : ℕ :=
  check_incorrect_match (List.range c.width) (List.range c.height) c
    (fun v => decide (v < 1)) (0, 0)

/-- Whether a cylinder candidate passes the dark-pixel validity gate of
get_selected_filter line 134 (its matched box holds more than 200 pixels of
intensity below 60); false is also recorded when the template match itself
raises. -/
def gatePasses (img t : Img) : Bool :=
  match get_template_match img t with
  | none => false
  | some bb => decide (200 < cylinderGate img bb.topLeft bb.bottomRight)

/-- Whether a cylinder candidate is fully accepted by get_selected_filter:
its dark-pixel gate passes and the combined canvas built from the cutoff box
(tlf, brf) and its matched box has fewer than 1500 near-black pixels (the
break at line 176 fires exactly then). -/
def candidateFullAccept (img : Img) (tlf brf : ℕ × ℕ) (t : Img) : Bool :=
  match get_template_match img t with
  | none => false
  | some bb =>
    decide (200 < cylinderGate img bb.topLeft bb.bottomRight) &&
      decide (combinedBlackCount (buildCombined img tlf brf bb.topLeft bb.bottomRight) < 1500)

/-- Cylinder-candidate loop of get_selected_filter (lines 124-176) for one
photograph, with the cutoff box already matched. Returns none when a
template match raises; otherwise returns the list of candidate indices the
loop evaluated (in order) together with the index of the accepted candidate,
if any: a candidate whose dark-pixel gate exceeds 200 has its combined
canvas built, and only a near-black count below 1500 saves the composite and
breaks the loop; in every other case the loop moves to the next candidate.
The argument i is the index of the first remaining candidate. -/
def selectCylinderAux (img : Img) (tlf brf : ℕ × ℕ) :
    List Img → ℕ → Option (List ℕ × Option ℕ)
  | [], _ => some ([], none)
  | t :: ts, i =>
    match get_template_match img t with
    | none => none
    | some bb =>
      if 200 < cylinderGate img bb.topLeft bb.bottomRight then
        if combinedBlackCount (buildCombined img tlf brf bb.topLeft bb.bottomRight) < 1500 then
          some ([i], some i)
        else
          Option.map (fun p => (i :: p.1, p.2)) (selectCylinderAux img tlf brf ts (i + 1))
      else
        Option.map (fun p => (i :: p.1, p.2)) (selectCylinderAux img tlf brf ts (i + 1))

/-- The cylinder-candidate scan started at index 0. -/
def selectCylinder (img : Img) (tlf brf : ℕ × ℕ) (ts : List Img) :
    Option (List ℕ × Option ℕ) :=
  selectCylinderAux img tlf brf ts 0

/-- Per-file body of get_selected_filter (lines 113-176): match the cutoff
template first, then run the cylinder-candidate scan against the resulting
box. -/
def processFile (img cutoffTemplate : Img) (cyls : List Img) :
    Option (List ℕ × Option ℕ) :=
  match get_template_match img cutoffTemplate with
  | none => none
  | some bbf => selectCylinder img bbf.topLeft bbf.bottomRight cyls

/-- Index of the first fully accepted cylinder candidate (dark-pixel gate
over 200 and combined near-black count below 1500), the reference order the
scan is proved to follow. -/
def firstAcceptedIdx (img : Img) (tlf brf : ℕ × ℕ) : List Img → Option ℕ
  | [] => none
  | t :: ts =>
    if candidateFullAccept img tlf brf t then some 0
    else (firstAcceptedIdx img tlf brf ts).map (· + 1)

/-- The list s, s+1, ..., s+n-1 of loop indices. -/
def idxRange : ℕ → ℕ → List ℕ
  | _, 0 => []
  | s, n + 1 => s :: idxRange (s + 1) n

/-- The fixed margin kept from each edge of the label-bearing region when a
label is placed (generate_synthetic_data line 217). -/
def pixToEdge : ℤ := 15

/-- Python random.randint(a, b): raises ValueError when b < a (empty range),
otherwise returns some value in [a, b] chosen by the generator; the draw
argument stands for the generator's output and is reduced into the range. -/
def pyRandint (a b : ℤ) (draw : ℕ) : Option ℤ :=
  if b < a then none else some (a + (draw : ℤ) % (b - a + 1))

/-- Label placement step of generate_synthetic_data (lines 213-224):
filterImgW is filter_img.size[0], (wFilter, hFilter) the width and height of
the label-bearing region from filter_coordinates, (wLabel, hLabel) the label
crop size. The class fail_label_half_printed is pinned to the left edge
horizontally; every other class draws x = randint(15, wFilter - wLabel - 15),
and every class draws y = randint(15, hFilter - hLabel - 15). A failing
randint (empty range) propagates as none. -/
def placeLabel (className : String) (filterImgW wFilter hFilter wLabel hLabel : ℤ)
    (drawX drawY : ℕ) : Option (ℤ × ℤ) :=
  let ox : Option ℤ :=
    if className = "fail_label_half_printed" then some (filterImgW - wFilter)
    else pyRandint pixToEdge (wFilter - wLabel - pixToEdge) drawX
  match ox with
  | none => none
  | some x =>
    match pyRandint pixToEdge (hFilter - hLabel - pixToEdge) drawY with
    | none => none
    | some y => some (x, y)

/-- Non-background pixel count of a cropped label (get_removed_label lines
74-76): pixels of intensity below 220 over the whole crop. -/
def labelDarkCount (box : Img) : ℕ :=
  check_incorrect_match (List.range box.width) (List.range box.height) box
    (fun v => decide (v < 220)) (0, 0)

/-- Validity gate of the Label Extractor (get_removed_label line 79): the
crop is persisted as a class-label sample iff label_pixels < 3000 and
label_pixels > 1000. -/
def labelBoxAccept (box : Img) : Bool :=
  decide (labelDarkCount box < 3000) && decide (1000 < labelDarkCount box)

/-- Intensity band predicate used on the label crop by the Compositor
(generate_synthetic_data line 235): x < 220 and x > 120. -/
def labelBandCond (v : ℕ) : Bool :=
  decide (v < 220) && decide (120 < v)

/-- Command-line arguments of synthetic_data.py (lines 641-649): three
per-split synthetic sample counts, three real-to-synthetic ratios, and the
no_combine flag. -/
structure Args where
  nTrain : ℤ
  rTrain : ℚ
  nVal : ℤ
  rVal : ℚ
  nTest : ℤ
  rTest : ℚ
  noCombine : Bool

/-- Ratio range check (lines 659-663): some ratio is below 0 or above 1. -/
def ratioInvalid (a : Args) : Prop :=
  a.rTrain < 0 ∨ 1 < a.rTrain ∨ a.rVal < 0 ∨ 1 < a.rVal ∨ a.rTest < 0 ∨ 1 < a.rTest

instance (a : Args) : Decidable (ratioInvalid a) := by unfold ratioInvalid; infer_instance

/-- Count/ratio consistency check (lines 666-671), active only with
combining enabled: some split has its count zero xor its ratio zero. -/
def comboInvalid (a : Args) : Prop :=
  a.noCombine = false ∧
    (Xor' (a.nTrain = 0) (a.rTrain = 0) ∨ Xor' (a.nVal = 0) (a.rVal = 0) ∨
      Xor' (a.nTest = 0) (a.rTest = 0))

instance (a : Args) : Decidable (comboInvalid a) := by unfold comboInvalid; infer_instance

/-- Train ceiling check (lines 676-682): with combining enabled and
0 != train_ratio < 1, abort when (train_set / train_ratio) *
(1 - train_ratio) exceeds 48 (float arithmetic modelled exactly over ℚ). -/
def trainTooLarge (a : Args) : Prop :=
  a.noCombine = false ∧ a.rTrain < 1 ∧ a.rTrain ≠ 0 ∧
    (a.nTrain : ℚ) / a.rTrain * (1 - a.rTrain) > 48

instance (a : Args) : Decidable (trainTooLarge a) := by unfold trainTooLarge; infer_instance

/-- Validation ceiling check (lines 684-689), ceiling 6. -/
def valTooLarge (a : Args) : Prop :=
  a.noCombine = false ∧ a.rVal < 1 ∧ a.rVal ≠ 0 ∧
    (a.nVal : ℚ) / a.rVal * (1 - a.rVal) > 6

instance (a : Args) : Decidable (valTooLarge a) := by unfold valTooLarge; infer_instance

/-- Test ceiling check (lines 691-696), ceiling 6. -/
def testTooLarge (a : Args) : Prop :=
  a.noCombine = false ∧ a.rTest < 1 ∧ a.rTest ≠ 0 ∧
    (a.nTest : ℚ) / a.rTest * (1 - a.rTest) > 6

instance (a : Args) : Decidable (testTooLarge a) := by unfold testTooLarge; infer_instance

/-- The startup validation cascade of the script entry point (lines 658-696)
in source order: the diagnostic printed before exit() for the first failing
check, or none when every check passes. -/
def mainChecks (a : Args) : Option String :=
  if ratioInvalid a then some "Invalid ratio, exiting..."
  else if comboInvalid a then some "Invalid set size, ratio combination, exiting..."
  else if trainTooLarge a then some "Train set size is too large, exiting..."
  else if valTooLarge a then some "Validation set size is too large, exiting..."
  else if testTooLarge a then some "Test set size is too large, exiting..."
  else none

/-- Observable process steps of the script entry point. exitProgram carries
the process exit status: python exit() with no argument raises
SystemExit(None), which terminates with status 0. -/
inductive MainStep where
  | printMsg (s : String)
  | createDirs
  | exitProgram (code : ℕ)
  | generateData (n : ℤ)
  | assembleDataset
deriving DecidableEq

/-- The entry point of synthetic_data.py (lines 632-708) as the sequence of
observable steps it performs: it prints and creates the directory tree, runs
the validation cascade (printing the first diagnostic and exiting with
status 0 on failure), then regenerates the synthetic pool when the cached
pool is insufficient (the filesystem-dependent size test is abstracted as
the needRegen flag) and assembles the dataset. -/
def runMain (a : Args) (needRegen : Bool) : List MainStep :=
  [MainStep.printMsg "Creating Synthetic data directories", MainStep.createDirs] ++
    match mainChecks a with
    | some msg => [MainStep.printMsg msg, MainStep.exitProgram 0]
    | none =>
      (if needRegen then [MainStep.generateData (a.nTrain + a.nVal + a.nTest)] else []) ++
        [MainStep.assembleDataset]

/-- The four fixed classes (synthetic_data.py lines 653-654 and 489-490). -/
def classNames : List String :=
  ["fail_label_not_fully_printed", "fail_label_half_printed",
    "fail_label_crooked_print", "no_fail"]

/-- Size of the subset_filters array drawn by generate_synthetic_data
(line 194): n_data * len(class_names). -/
def subsetFiltersLen (nData : ℕ) : ℕ := nData * classNames.length

/-- The subset_filters indices read by the nested loops of
generate_synthetic_data (lines 197-203): for class index i and sample index
j the code reads subset_filters[i * len(class_names) + j]. -/
def filterAccessIndices (nData : ℕ) : List ℕ :=
  (List.range classNames.length).flatMap fun i =>
    (List.range nData).map fun j => i * classNames.length + j

/-- Whether every subset_filters access stays within the drawn array
(numpy raises IndexError at the first access that does not). -/
def filterAccessesOk (nData : ℕ) : Bool :=
  (filterAccessIndices nData).all fun k => decide (k < subsetFiltersLen nData)

/-- The numpy argmax loop restricted to arrays without NaN, over the plain
score values; used to reason about npArgmaxGo. -/
def qArgmaxGo : List (ℤ × ℤ) → (ℤ × ℤ) → ℕ → ℕ → ℕ
  | [], _, best, _ => best
  | v :: vs, cur, best, i =>
    if pLe v cur then qArgmaxGo vs cur best (i + 1) else qArgmaxGo vs v i (i + 1)

/-- The underlying values of a list of non-NaN scores. -/
def stripSome (l : List (Option (ℤ × ℤ))) : List (ℤ × ℤ) := l.map fun s => s.getD (0, 1)

/-- A 1 by 1 all-black image. -/
def imgOnePx : Img := ⟨1, 1, fun _ _ => 0⟩

/-- A 2 by 2 template, larger than imgOnePx in both dimensions. -/
def tplTwo : Img := ⟨2, 2, fun _ _ => 0⟩

/-- A 3 by 3 image of constant intensity 100 (zero variance). -/
def imgFlat : Img := ⟨3, 3, fun _ _ => 100⟩

/-- A 2 by 2 template of constant intensity 100 (zero variance). -/
def tplFlat : Img := ⟨2, 2, fun _ _ => 100⟩

/-- A 39 by 39 all-black photograph (every pixel dark and near-black). -/
def imgZ : Img := ⟨39, 39, fun _ _ => 0⟩

/-- A 2 by 2 constant cutoff template: its zero variance makes every score
NaN, so it matches imgZ at the origin. -/
def tCut : Img := ⟨2, 2, fun _ _ => 0⟩

/-- First cylinder candidate for imgZ: its 2 by 2 matched box holds only 4
dark pixels, failing the 200-pixel gate. -/
def tR : Img := ⟨2, 2, fun _ _ => 0⟩

/-- Second cylinder candidate for imgZ: its 39 by 39 matched box holds 1521
dark pixels (gate passes) but the combined canvas then holds 1521 near-black
pixels, failing the final 1500 check. -/
def tL1 : Img := ⟨39, 39, fun _ _ => 0⟩

/-- Third cylinder candidate for imgZ: its 4 by 2 matched box holds only 8
dark pixels, failing the gate. -/
def tL2 : Img := ⟨4, 2, fun _ _ => 0⟩

/-- A 39 by 39 photograph of constant intensity 10: dark (below 60) but not
near-black (not below 1). -/
def imgTen : Img := ⟨39, 39, fun _ _ => 10⟩

/-- First cylinder candidate for imgTen: 2 by 2 box, gate fails (4 dark
pixels). -/
def wA : Img := ⟨2, 2, fun _ _ => 10⟩

/-- Second cylinder candidate for imgTen: 39 by 39 box, gate passes (1521
dark pixels) and the combined canvas has no near-black pixel, so the final
check passes too. -/
def wB : Img := ⟨39, 39, fun _ _ => 10⟩

/-- Third cylinder candidate for imgTen; never evaluated by the scan. -/
def wC : Img := ⟨3, 3, fun _ _ => 10⟩

/-- A 4 by 1 image alternating intensities 0 and 255: its correlation with
tplStripe is maximal, and tied, at window columns 0 and 2. -/
def imgStripes : Img := ⟨4, 1, fun x _ => if x % 2 = 0 then 0 else 255⟩

/-- A 2 by 1 template with intensities 0 and 255. -/
def tplStripe : Img := ⟨2, 1, fun x _ => if x = 0 then 0 else 255⟩

/-- A small non-constant image for exercising the bounding-box invariant. -/
def imgNine : Img := ⟨3, 2, fun x y => 7 * x + y⟩

/-- A 2 by 2 constant template fitting inside imgNine. -/
def tplNine : Img := ⟨2, 2, fun _ _ => 5⟩

/-- A 40 by 25 all-dark crop: exactly 1000 pixels below 220. -/
def box1000 : Img := ⟨40, 25, fun _ _ => 0⟩

/-- A 60 by 50 all-dark crop: exactly 3000 pixels below 220. -/
def box3000 : Img := ⟨60, 50, fun _ _ => 0⟩

/-- A 40 by 26 crop with exactly 1001 pixels below 220. -/
def box1001 : Img := ⟨40, 26, fun x y => if y * 40 + x < 1001 then 0 else 255⟩

/-- A 60 by 50 crop with exactly 2999 pixels below 220. -/
def box2999 : Img := ⟨60, 50, fun x y => if y * 60 + x < 2999 then 0 else 255⟩

/-- Arguments train_set=48 train_ratio=0.5, other splits disabled. -/
def args48 : Args := ⟨48, 1/2, 0, 0, 0, 0, false⟩

/-- Arguments train_set=49 train_ratio=0.5, other splits disabled. -/
def args49 : Args := ⟨49, 1/2, 0, 0, 0, 0, false⟩

/-- Arguments train_set=145 train_ratio=0.75, other splits disabled: the
exact required real-sample value 145/0.75*0.25 is 48.333..., above the
ceiling, while round(145/0.75) - 145 = 48 is not. -/
def args145 : Args := ⟨145, 3/4, 0, 0, 0, 0, false⟩

/-- Arguments val_set=7 val_ratio=0.5, other splits disabled: the required
real-sample value 7/0.5*0.5 = 7 exceeds the validation ceiling 6. -/
def argsV : Args := ⟨0, 0, 7, 1/2, 0, 0, false⟩

/-- Arguments test_set=13 test_ratio=0.5, other splits disabled: the
required real-sample value 13/0.5*0.5 = 6.5 exceeds the test ceiling 6. -/
def argsT : Args := ⟨0, 0, 0, 0, 13, 1/2, false⟩

/-- Arguments with an out-of-range train ratio of 2. -/
def argsBadRatio : Args := ⟨150, 2, 0, 0, 0, 0, false⟩

/-- Arguments with an inconsistent val split: count 0 but ratio 0.5. -/
def argsBadCombo : Args := ⟨150, 1/2, 0, 1/2, 0, 0, false⟩

/-! Helper lemmas about the argmax model. -/

theorem pLe_refl (x : ℤ × ℤ) : pLe x x := le_refl _

theorem pLe_total (x y : ℤ × ℤ) : pLe x y ∨ pLe y x := by
  unfold pLe
  exact le_total _ _

theorem pLe_of_not_pLe {x y : ℤ × ℤ} (h : ¬ pLe x y) : pLe y x :=
  (pLe_total x y).resolve_left h

theorem pLe_trans {x y z : ℤ × ℤ} (hx : 0 < x.2) (hy : 0 < y.2) (hz : 0 < z.2)
    (hxy : pLe x y) (hyz : pLe y z) : pLe x z := by
  rcases x with ⟨a, p⟩
  rcases y with ⟨b, q⟩
  rcases z with ⟨c, r⟩
  simp only [pLe] at *
  have h1 : a * q * r ≤ b * p * r := mul_le_mul_of_nonneg_right hxy (le_of_lt hz)
  have h2 : b * r * p ≤ c * q * p := mul_le_mul_of_nonneg_right hyz (le_of_lt hx)
  have h3 : q * (a * r) ≤ q * (c * p) := by nlinarith
  exact le_of_mul_le_mul_left h3 hy

theorem pLe_lt_trans {x y z : ℤ × ℤ} (hx : 0 < x.2) (hy : 0 < y.2) (hz : 0 < z.2)
    (hxy : pLe x y) (hyz : ¬ pLe z y) : ¬ pLe z x := by
  intro hzx
  exact hyz (pLe_trans hz hx hy hzx hxy)

theorem pLt_trans {x y z : ℤ × ℤ} (hx : 0 < x.2) (hy : 0 < y.2) (hz : 0 < z.2)
    (hxy : ¬ pLe y x) (hyz : ¬ pLe z y) : ¬ pLe z x := by
  intro hzx
  exact hyz (pLe_trans hz hx hy hzx (pLe_of_not_pLe hxy))

theorem npArgmaxGo_lt (l : List (Option (ℤ × ℤ))) :
    ∀ (cur : Option (ℤ × ℤ)) (best i N : ℕ), best < N → i + l.length = N →
      npArgmaxGo l cur best i < N := by
  induction l with
  | nil =>
    intro cur best i N hb _
    simpa [npArgmaxGo] using hb
  | cons v vs ih =>
    intro cur best i N hb hi
    simp only [List.length_cons] at hi
    simp only [npArgmaxGo]
    split
    · exact ih cur best (i + 1) N hb (by omega)
    · split
      · omega
      · exact ih v i (i + 1) N (by omega) (by omega)

theorem npArgmax_lt (l : List (Option (ℤ × ℤ))) (h : l ≠ []) :
    npArgmax l < l.length := by
  cases l with
  | nil => exact absurd rfl h
  | cons v vs =>
    simp only [npArgmax, List.length_cons]
    split
    · omega
    · exact npArgmaxGo_lt vs v 0 1 (vs.length + 1) (by omega) (by omega)

theorem npArgmaxGo_map_some (l : List (ℤ × ℤ)) :
    ∀ (cur : ℤ × ℤ) (best i : ℕ),
      npArgmaxGo (l.map some) (some cur) best i = qArgmaxGo l cur best i := by
  induction l with
  | nil => intro cur best i; rfl
  | cons v vs ih =>
    intro cur best i
    by_cases hvc : pLe v cur
    · simp only [List.map_cons, npArgmaxGo, qArgmaxGo, fle, decide_eq_true_eq, if_pos hvc]
      exact ih cur best (i + 1)
    · simp only [List.map_cons, npArgmaxGo, qArgmaxGo, fle, decide_eq_true_eq, if_neg hvc,
        reduceCtorEq, if_false]
      exact ih v i (i + 1)

theorem getD_mem_of_lt {α : Type} (d : α) (l : List α) :
    ∀ i, i < l.length → l.getD i d ∈ l := by
  induction l with
  | nil => intro i hi; simp at hi
  | cons v vs ih =>
    intro i hi
    cases i with
    | zero => exact List.mem_cons_self v vs
    | succ i =>
      simp only [List.getD_cons_succ]
      exact List.mem_cons_of_mem v (ih i (by simpa using hi))

theorem qArgmaxGo_spec (l : List (ℤ × ℤ)) :
    ∀ (cur : ℤ × ℤ) (best i : ℕ), 0 < cur.2 → (∀ v ∈ l, 0 < v.2) →
      (qArgmaxGo l cur best i = best ∧ ∀ q ∈ l, pLe q cur) ∨
      (∃ m, m < l.length ∧ qArgmaxGo l cur best i = i + m ∧
        ¬ pLe (l.getD m (0, 1)) cur ∧
        (∀ m2, m2 < l.length → pLe (l.getD m2 (0, 1)) (l.getD m (0, 1))) ∧
        (∀ m2, m2 < m → ¬ pLe (l.getD m (0, 1)) (l.getD m2 (0, 1)))) := by
  induction l with
  | nil =>
    intro cur best i _ _
    exact Or.inl ⟨rfl, by simp⟩
  | cons v vs ih =>
    intro cur best i hcur hpos
    have hv : 0 < v.2 := hpos v (List.mem_cons_self v vs)
    have hpos' : ∀ u ∈ vs, 0 < u.2 := fun u hu => hpos u (List.mem_cons_of_mem v hu)
    simp only [qArgmaxGo]
    by_cases hvc : pLe v cur
    · rw [if_pos hvc]
      rcases ih cur best (i + 1) hcur hpos' with ⟨heq, hle⟩ | ⟨m, hm, heq, hlt, hmax, hstrict⟩
      · refine Or.inl ⟨heq, ?_⟩
        intro q hq
        rcases List.mem_cons.mp hq with rfl | hq
        · exact hvc
        · exact hle q hq
      · have hw : 0 < (vs.getD m (0, 1)).2 := hpos' _ (getD_mem_of_lt (0, 1) vs m hm)
        refine Or.inr ⟨m + 1, by simpa using hm, by omega, by simpa using hlt, ?_, ?_⟩
        · intro m2 hm2
          cases m2 with
          | zero =>
            simpa using pLe_of_not_pLe (pLe_lt_trans hv hcur hw hvc hlt)
          | succ m2 => simpa using hmax m2 (by simpa using hm2)
        · intro m2 hm2
          cases m2 with
          | zero => simpa using pLe_lt_trans hv hcur hw hvc hlt
          | succ m2 => simpa using hstrict m2 (by omega)
    · rw [if_neg hvc]
      rcases ih v i (i + 1) hv hpos' with ⟨heq, hle⟩ | ⟨m, hm, heq, hlt, hmax, hstrict⟩
      · refine Or.inr ⟨0, by simp, by omega, by simpa using hvc, ?_, ?_⟩
        · intro m2 hm2
          cases m2 with
          | zero => simpa using pLe_refl v
          | succ m2 => simpa using hle (vs.getD m2 (0, 1)) (getD_mem_of_lt (0, 1) vs m2 (by simpa using hm2))
        · intro m2 hm2
          omega
      · have hw : 0 < (vs.getD m (0, 1)).2 := hpos' _ (getD_mem_of_lt (0, 1) vs m hm)
        refine Or.inr ⟨m + 1, by simpa using hm, by omega, ?_, ?_, ?_⟩
        · simpa using pLt_trans hcur hv hw hvc hlt
        · intro m2 hm2
          cases m2 with
          | zero => simpa using pLe_of_not_pLe hlt
          | succ m2 => simpa using hmax m2 (by simpa using hm2)
        · intro m2 hm2
          cases m2 with
          | zero => simpa using hlt
          | succ m2 => simpa using hstrict m2 (by omega)

theorem getD_map_some {α : Type} (d : α) (l : List α) :
    ∀ i, i < l.length → (l.map some).getD i none = some (l.getD i d) := by
  induction l with
  | nil => intro i hi; simp at hi
  | cons v vs ih =>
    intro i hi
    cases i with
    | zero => rfl
    | succ i => simpa using ih i (by simpa using hi)

theorem stripSome_eq (l : List (Option (ℤ × ℤ))) (hn : ∀ s ∈ l, s ≠ none) :
    l = (stripSome l).map some := by
  induction l with
  | nil => rfl
  | cons v vs ih =>
    have hv : v ≠ none := hn v (List.mem_cons_self v vs)
    obtain ⟨a, rfl⟩ := Option.ne_none_iff_exists'.mp hv
    have := ih (fun s hs => hn s (List.mem_cons_of_mem _ hs))
    simp only [stripSome, List.map_cons, List.map_map]
    simp only [stripSome, List.map_map] at this
    exact congrArg (some a :: ·) (by simpa using this)

theorem npArgmax_spec (l : List (Option (ℤ × ℤ))) (h0 : l ≠ [])
    (hn : ∀ s ∈ l, s ≠ none) (hp : ∀ s ∈ l, ∀ v, s = some v → 0 < v.2) :
    npArgmax l < l.length ∧
    (∀ i, i < l.length → fle (l.getD i none) (l.getD (npArgmax l) none) = true) ∧
    (∀ i, i < npArgmax l → fle (l.getD (npArgmax l) none) (l.getD i none) = false) := by
  obtain hl := stripSome_eq l hn
  set w := stripSome l with hw
  cases hwc : w with
  | nil =>
    exfalso
    rw [hwc] at hl
    exact h0 (by simpa using hl)
  | cons a m =>
    rw [hwc] at hl
    have hposall : ∀ v ∈ a :: m, 0 < v.2 := by
      intro v hv
      exact hp (some v) (by rw [hl]; exact List.mem_map_of_mem some hv) v rfl
    have hposa : 0 < a.2 := hposall a (List.mem_cons_self a m)
    have hposm : ∀ v ∈ m, 0 < v.2 := fun v hv => hposall v (List.mem_cons_of_mem a hv)
    subst hl
    have harg : npArgmax ((a :: m).map some) = qArgmaxGo m a 0 1 := by
      simp only [List.map_cons, npArgmax, reduceCtorEq, if_false]
      exact npArgmaxGo_map_some m a 0 1
    have hget : ∀ i, i < m.length + 1 →
        ((a :: m).map some).getD i none = some ((a :: m).getD i (0, 1)) := by
      intro i hi
      exact getD_map_some (0, 1) (a :: m) i (by simpa using hi)
    rcases qArgmaxGo_spec m a 0 1 hposa hposm with ⟨heq, hle⟩ | ⟨mm, hm, heq, hlt, hmax, hstrict⟩
    · rw [harg, heq]
      refine ⟨by simp, ?_, ?_⟩
      · intro i hi
        rw [hget i (by simpa using hi), hget 0 (by omega)]
        simp only [fle, decide_eq_true_eq]
        cases i with
        | zero => simpa using pLe_refl a
        | succ i => simpa using hle (m.getD i (0, 1)) (getD_mem_of_lt (0, 1) m i (by simpa using hi))
      · intro i hi
        omega
    · rw [harg, heq]
      have hk1 : 1 + mm < m.length + 1 := by omega
      have hgmm : (a :: m).getD (1 + mm) (0, 1) = m.getD mm (0, 1) := by
        have h1 : 1 + mm = mm + 1 := by omega
        rw [h1]
        simp
      refine ⟨by simpa using hk1, ?_, ?_⟩
      · intro i hi
        rw [hget i (by simpa using hi), hget (1 + mm) (by simpa using hk1), hgmm]
        simp only [fle, decide_eq_true_eq]
        cases i with
        | zero => simpa using pLe_of_not_pLe hlt
        | succ i => simpa using hmax i (by simpa using hi)
      · intro i hi
        rw [hget i (by omega), hget (1 + mm) (by simpa using hk1), hgmm]
        simp only [fle, decide_eq_false_iff_not]
        cases i with
        | zero => simpa using hlt
        | succ i => simpa using hstrict i (by omega)

/-- Positivity of the denominator of every finite score: the denominator is
the product of the two variance sums, both sums of squares and both nonzero
on the branch that produces a finite value. -/
theorem nccScore_den_pos (img t : Img) (px py : ℕ) (v : ℤ × ℤ)
    (h : nccScore img t px py = some v) : 0 < v.2 := by
  unfold nccScore at h
  by_cases hc : tplVarN t = 0 ∨ patchVarN img t px py = 0
  · rw [if_pos hc] at h
    exact absurd h (by simp)
  · rw [if_neg hc] at h
    push_neg at hc
    have htv : 0 ≤ tplVarN t := by
      unfold tplVarN zsum
      refine List.sum_nonneg ?_
      intro x hx
      simp only [List.mem_map] at hx
      obtain ⟨p, _, rfl⟩ := hx
      positivity
    have hpv : 0 ≤ patchVarN img t px py := by
      unfold patchVarN zsum
      refine List.sum_nonneg ?_
      intro x hx
      simp only [List.mem_map] at hx
      obtain ⟨p, _, rfl⟩ := hx
      positivity
    have hden : 0 < patchVarN img t px py * tplVarN t :=
      mul_pos (lt_of_le_of_ne hpv (Ne.symm hc.2)) (lt_of_le_of_ne htv (Ne.symm hc.1))
    have hv2 : v.2 = patchVarN img t px py * tplVarN t := by
      have h2 := Option.some.inj h
      by_cases hcov : 0 ≤ covN img t px py
      · rw [if_pos hcov] at h2
        rw [← h2]
      · rw [if_neg hcov] at h2
        rw [← h2]
    rw [hv2]
    exact hden

/-- Every entry of matchScores is an nccScore, so finite entries have
positive denominators. -/
theorem matchScores_den_pos (img t : Img) :
    ∀ s ∈ matchScores img t, ∀ v, s = some v → 0 < v.2 := by
  intro s hs v hv
  simp only [matchScores, List.mem_map] at hs
  obtain ⟨k, _, hk⟩ := hs
  subst hv
  exact nccScore_den_pos img t _ _ v hk

/-- C1 (corrected). The oversized-template and zero-variance cases of
get_template_match are not guarded: whenever the template fits (including
every zero-variance template, image or patch, whose NaN scores degrade
silently through argmax) the call returns a bounding box, but whenever the
template exceeds the image in either dimension the call raises instead of
returning a low-confidence match, so the error branch is reachable. -/
theorem C1_no_oversize_guard (img t : Img) :
    (t.height ≤ img.height ∧ t.width ≤ img.width →
      ∃ bb, get_template_match img t = some bb) ∧
    (img.height < t.height ∨ img.width < t.width →
      get_template_match img t = none) := by
  constructor
  · rintro ⟨h1, h2⟩
    unfold get_template_match
    rw [if_neg (by omega)]
    exact ⟨_, rfl⟩
  · intro h
    unfold get_template_match
    rw [if_pos h]

/-- Witness for C1: the all-constant (zero-variance) pair still produces a
bounding box. -/
theorem C1_no_oversize_guard_witness :
    ∃ bb, get_template_match imgFlat tplFlat = some bb :=
  (C1_no_oversize_guard imgFlat tplFlat).1 (by decide)

/-- Counterexample for C1 as stated: a template larger than the image makes
get_template_match raise (np.zeros receives a negative shape) instead of
degrading to a returned bounding box. -/
theorem C1_oversized_crash : get_template_match imgOnePx tplTwo = none := by decide

/-- C9 (confirmed). For positive template dimensions and a template fitting
inside the image, get_template_match returns a box satisfying the BoundingBox
invariant: strictly ordered corners, width and height equal to the
template's, and containment in the image bounds. -/
theorem C9_bbox_invariant (img t : Img) (hw : 0 < t.width) (hh : 0 < t.height)
    (hfw : t.width ≤ img.width) (hfh : t.height ≤ img.height) :
    ∃ bb, get_template_match img t = some bb ∧
      bb.topLeft.1 < bb.bottomRight.1 ∧ bb.topLeft.2 < bb.bottomRight.2 ∧
      bb.bottomRight.1 - bb.topLeft.1 = t.width ∧
      bb.bottomRight.2 - bb.topLeft.2 = t.height ∧
      bb.bottomRight.1 ≤ img.width ∧ bb.bottomRight.2 ≤ img.height := by
  have hguard : ¬(img.height < t.height ∨ img.width < t.width) := by omega
  have hlen : (matchScores img t).length =
      (img.height - t.height + 1) * (img.width - t.width + 1) := by
    simp [matchScores]
  have hne : matchScores img t ≠ [] := by
    refine List.ne_nil_of_length_pos ?_
    rw [hlen]
    exact Nat.mul_pos (by omega) (by omega)
  have hk := npArgmax_lt (matchScores img t) hne
  rw [hlen] at hk
  have hmwpos : 0 < img.width - t.width + 1 := by omega
  have hmod : npArgmax (matchScores img t) % (img.width - t.width + 1) <
      img.width - t.width + 1 := Nat.mod_lt _ hmwpos
  have hdiv : npArgmax (matchScores img t) / (img.width - t.width + 1) <
      img.height - t.height + 1 :=
    (Nat.div_lt_iff_lt_mul hmwpos).mpr hk
  unfold get_template_match
  rw [if_neg hguard]
  exact ⟨_, rfl, by simp; omega, by simp; omega, by simp, by simp, by simp; omega,
    by simp; omega⟩

/-- Witness for C9 at a concrete image and template. -/
theorem C9_bbox_invariant_witness :
    ∃ bb, get_template_match imgNine tplNine = some bb ∧
      bb.topLeft.1 < bb.bottomRight.1 ∧ bb.topLeft.2 < bb.bottomRight.2 ∧
      bb.bottomRight.1 - bb.topLeft.1 = tplNine.width ∧
      bb.bottomRight.2 - bb.topLeft.2 = tplNine.height ∧
      bb.bottomRight.1 ≤ imgNine.width ∧ bb.bottomRight.2 ≤ imgNine.height :=
  C9_bbox_invariant imgNine tplNine (by decide) (by decide) (by decide) (by decide)

/-- C8 (confirmed). get_template_match is deterministic (it is a pure
function of its inputs), and whenever every window score is an actual number
(no zero-variance NaN) the returned box decodes the row-major-first maximal
flattened index: the chosen index k carries a maximal score and every
earlier index in the row-major (row, then column) scan carries a strictly
smaller score. -/
theorem C8_determinism_tiebreak (img t : Img)
    (hfw : t.width ≤ img.width) (hfh : t.height ≤ img.height)
    (hn : ∀ s ∈ matchScores img t, s ≠ none) :
    get_template_match img t = get_template_match img t ∧
    ∃ k, k < (matchScores img t).length ∧
      get_template_match img t =
        some ⟨(k % (img.width - t.width + 1), k / (img.width - t.width + 1)),
          (k % (img.width - t.width + 1) + t.width,
            k / (img.width - t.width + 1) + t.height)⟩ ∧
      (∀ i, i < (matchScores img t).length →
        fle ((matchScores img t).getD i none) ((matchScores img t).getD k none) = true) ∧
      (∀ i, i < k →
        fle ((matchScores img t).getD k none) ((matchScores img t).getD i none) = false) := by
  have hlen : (matchScores img t).length =
      (img.height - t.height + 1) * (img.width - t.width + 1) := by
    simp [matchScores]
  have hne : matchScores img t ≠ [] := by
    refine List.ne_nil_of_length_pos ?_
    rw [hlen]
    exact Nat.mul_pos (by omega) (by omega)
  obtain ⟨hk, hmax, hfirst⟩ :=
    npArgmax_spec (matchScores img t) hne hn (matchScores_den_pos img t)
  refine ⟨rfl, npArgmax (matchScores img t), hk, ?_, hmax, hfirst⟩
  unfold get_template_match
  rw [if_neg (by omega)]

/-- Witness for C8: the stripe image has tied maximal scores at window
columns 0 and 2, and the returned box sits at the first of them. -/
theorem C8_determinism_tiebreak_witness :
    get_template_match imgStripes tplStripe = get_template_match imgStripes tplStripe ∧
    ∃ k, k < (matchScores imgStripes tplStripe).length ∧
      get_template_match imgStripes tplStripe =
        some ⟨(k % (imgStripes.width - tplStripe.width + 1),
            k / (imgStripes.width - tplStripe.width + 1)),
          (k % (imgStripes.width - tplStripe.width + 1) + tplStripe.width,
            k / (imgStripes.width - tplStripe.width + 1) + tplStripe.height)⟩ ∧
      (∀ i, i < (matchScores imgStripes tplStripe).length →
        fle ((matchScores imgStripes tplStripe).getD i none)
          ((matchScores imgStripes tplStripe).getD k none) = true) ∧
      (∀ i, i < k →
        fle ((matchScores imgStripes tplStripe).getD k none)
          ((matchScores imgStripes tplStripe).getD i none) = false) :=
  C8_determinism_tiebreak imgStripes tplStripe (by decide) (by decide) (by decide)

/-! Evaluation toolkit: column-wise decomposition of the pixel counts and
closed forms for constant templates, keeping concrete evaluations shallow. -/

theorem countP_flatMap {α β : Type} (p : β → Bool) (l : List α) (f : α → List β) :
    (l.flatMap f).countP p = (l.map fun a => (f a).countP p).sum := by
  induction l with
  | nil => rfl
  | cons a l ih => simp [List.flatMap_cons, List.countP_append, ih]

theorem check_decomp (xr yr : List ℕ) (img : Img) (cond : ℕ → Bool) (tl : ℕ × ℕ) :
    check_incorrect_match xr yr img cond tl =
      (xr.map fun x =>
        (yr.map fun y => img.pix (x + tl.1) (y + tl.2)).countP cond).sum := by
  unfold check_incorrect_match
  exact countP_flatMap cond xr _

theorem zsum_const (l : List (ℕ × ℕ)) (k : ℤ) : zsum l (fun _ _ => k) = l.length * k := by
  induction l with
  | nil => simp [zsum]
  | cons p l ih =>
    unfold zsum at ih ⊢
    simp only [List.map_cons, List.sum_cons, List.length_cons, ih]
    push_cast
    ring

theorem tplPixels_length (t : Img) : (tplPixels t).length = t.height * t.width := by
  simp only [tplPixels, List.flatMap, List.length_flatten, List.map_map, Function.comp_def,
    List.length_map, List.length_range]
  rw [List.map_const', List.length_range, List.sum_const_nat]

theorem tplSum_const (w h c : ℕ) :
    tplSum ⟨w, h, fun _ _ => c⟩ = ((w * h : ℕ) : ℤ) * (c : ℤ) := by
  unfold tplSum
  show zsum (tplPixels ⟨w, h, fun _ _ => c⟩) (fun _ _ => (c : ℤ)) = ((w * h : ℕ) : ℤ) * (c : ℤ)
  rw [zsum_const, tplPixels_length]
  show ((h * w : ℕ) : ℤ) * (c : ℤ) = ((w * h : ℕ) : ℤ) * (c : ℤ)
  push_cast
  ring

theorem zsum_zero (l : List (ℕ × ℕ)) : zsum l (fun _ _ => (0 : ℤ)) = 0 := by
  rw [zsum_const]
  ring

theorem tplVarN_const (w h c : ℕ) : tplVarN ⟨w, h, fun _ _ => c⟩ = 0 := by
  unfold tplVarN
  rw [tplSum_const]
  show zsum (tplPixels ⟨w, h, fun _ _ => c⟩)
      (fun _ _ => (((w * h : ℕ) : ℤ) * (c : ℤ) - ((w * h : ℕ) : ℤ) * (c : ℤ)) ^ 2) = 0
  rw [sub_self]
  simp only [ne_eq, OfNat.ofNat_ne_zero, not_false_eq_true, zero_pow]
  exact zsum_zero _

theorem npArgmax_of_head_none (l : List (Option (ℤ × ℤ))) (h : l.head? = some none) :
    npArgmax l = 0 := by
  cases l with
  | nil => rfl
  | cons v vs =>
    simp only [List.head?_cons, Option.some.injEq] at h
    rw [npArgmax, if_pos h]

theorem matchScores_head (img t : Img) :
    (matchScores img t).head? = some (nccScore img t 0 0) := by
  have hpos : 0 < (img.height - t.height + 1) * (img.width - t.width + 1) :=
    Nat.mul_pos (by omega) (by omega)
  obtain ⟨m, hm⟩ : ∃ m, (img.height - t.height + 1) * (img.width - t.width + 1) = m + 1 :=
    ⟨_, (Nat.succ_pred_eq_of_pos hpos).symm⟩
  unfold matchScores
  rw [hm, List.range_succ_eq_map]
  simp

/-- When the very first window score is NaN, np.argmax returns index 0 and
the box sits at the origin with the template's size. In particular this is
the outcome for every zero-variance (constant) template that fits. -/
theorem get_template_match_first_nan (img t : Img) (hh : t.height ≤ img.height)
    (hw : t.width ≤ img.width) (hnan : nccScore img t 0 0 = none) :
    get_template_match img t = some ⟨(0, 0), (t.width, t.height)⟩ := by
  have hhd := matchScores_head img t
  rw [hnan] at hhd
  have harg : npArgmax (matchScores img t) = 0 := npArgmax_of_head_none _ hhd
  unfold get_template_match
  rw [if_neg (by omega)]
  simp [harg]

/-- A constant template has zero variance, so it matches any image it fits
into at the origin. -/
theorem match_const_tpl (img : Img) (w h c : ℕ) (hh : h ≤ img.height)
    (hw : w ≤ img.width) :
    get_template_match img ⟨w, h, fun _ _ => c⟩ = some ⟨(0, 0), (w, h)⟩ := by
  have hnan : nccScore img ⟨w, h, fun _ _ => c⟩ 0 0 = none := by
    unfold nccScore
    rw [if_pos (Or.inl (tplVarN_const w h c))]
  exact get_template_match_first_nan img _ hh hw hnan

theorem selectCylinderAux_spec (img : Img) (tlf brf : ℕ × ℕ) (ts : List Img) :
    ∀ s : ℕ, (∀ t ∈ ts, get_template_match img t ≠ none) →
      selectCylinderAux img tlf brf ts s =
        some (match firstAcceptedIdx img tlf brf ts with
          | some i => (idxRange s (i + 1), some (s + i))
          | none => (idxRange s ts.length, none)) := by
  induction ts with
  | nil =>
    intro s _
    simp [selectCylinderAux, firstAcceptedIdx, idxRange]
  | cons t ts ih =>
    intro s h
    have ht : get_template_match img t ≠ none := h t (List.mem_cons_self t ts)
    obtain ⟨bb, hbb⟩ := Option.ne_none_iff_exists'.mp ht
    have hts : ∀ u ∈ ts, get_template_match img u ≠ none :=
      fun u hu => h u (List.mem_cons_of_mem t hu)
    by_cases hg : 200 < cylinderGate img bb.topLeft bb.bottomRight
    · by_cases hbk :
        combinedBlackCount (buildCombined img tlf brf bb.topLeft bb.bottomRight) < 1500
      · have hacc : candidateFullAccept img tlf brf t = true := by
          simp [candidateFullAccept, hbb, hg, hbk]
        simp only [selectCylinderAux, hbb, if_pos hg, if_pos hbk, firstAcceptedIdx, hacc,
          if_true, idxRange]
        simp
      · have hacc : candidateFullAccept img tlf brf t = false := by
          simp [candidateFullAccept, hbb, hbk]
        simp only [selectCylinderAux, hbb, if_pos hg, if_neg hbk, firstAcceptedIdx, hacc,
          Bool.false_eq_true, if_false]
        rw [ih (s + 1) hts]
        cases hfa : firstAcceptedIdx img tlf brf ts with
        | none => simp [hfa, idxRange]
        | some i =>
          simp only [hfa, Option.map_some, Option.map_some']
          simp [idxRange]
          omega
    · have hacc : candidateFullAccept img tlf brf t = false := by
        simp [candidateFullAccept, hbb, hg]
      simp only [selectCylinderAux, hbb, if_neg hg, firstAcceptedIdx, hacc,
        Bool.false_eq_true, if_false]
      rw [ih (s + 1) hts]
      cases hfa : firstAcceptedIdx img tlf brf ts with
      | none => simp [hfa, idxRange]
      | some i =>
        simp only [hfa, Option.map_some, Option.map_some']
        simp [idxRange]
        omega

/-- C2 (corrected). The cylinder-candidate scan of get_selected_filter
evaluates candidates in the fixed order and selects the first one that
passes both its dark-pixel gate (more than 200 pixels of intensity below 60
in its matched box) and the final composite check (fewer than 1500
near-black pixels on the combined canvas); candidates after the selected one
are not evaluated, while a candidate that passes the gate but fails the
composite check does not stop the scan. -/
theorem C2_selection_order (img : Img) (tlf brf : ℕ × ℕ) (ts : List Img)
    (h : ∀ t ∈ ts, get_template_match img t ≠ none) :
    selectCylinder img tlf brf ts =
      some (match firstAcceptedIdx img tlf brf ts with
        | some i => (idxRange 0 (i + 1), some i)
        | none => (idxRange 0 ts.length, none)) := by
  have hs := selectCylinderAux_spec img tlf brf ts 0 h
  unfold selectCylinder
  rw [hs]
  cases hfa : firstAcceptedIdx img tlf brf ts with
  | none => rfl
  | some i => simp

/-- Witness for C2: on the constant-intensity-10 photograph the first
candidate fails its gate, the second passes gate and composite check, so the
scan selects index 1 having evaluated exactly candidates 0 and 1; the third
candidate is never evaluated. -/
theorem C2_selection_order_witness :
    selectCylinder imgTen (0, 0) (2, 2) [wA, wB, wC] = some ([0, 1], some 1) := by
  have hA : get_template_match imgTen wA = some ⟨(0, 0), (2, 2)⟩ :=
    match_const_tpl imgTen 2 2 10 (by decide) (by decide)
  have hB : get_template_match imgTen wB = some ⟨(0, 0), (39, 39)⟩ :=
    match_const_tpl imgTen 39 39 10 (by decide) (by decide)
  have hC : get_template_match imgTen wC = some ⟨(0, 0), (3, 3)⟩ :=
    match_const_tpl imgTen 3 3 10 (by decide) (by decide)
  have gA : cylinderGate imgTen (0, 0) (2, 2) = 4 := by
    unfold cylinderGate
    rw [check_decomp]
    decide
  have gB : cylinderGate imgTen (0, 0) (39, 39) = 1521 := by
    unfold cylinderGate
    rw [check_decomp]
    decide
  have bB : combinedBlackCount (buildCombined imgTen (0, 0) (2, 2) (0, 0) (39, 39)) = 0 := by
    unfold combinedBlackCount
    rw [check_decomp]
    decide
  have cfaA : candidateFullAccept imgTen (0, 0) (2, 2) wA = false := by
    decide
  have cfaB : candidateFullAccept imgTen (0, 0) (2, 2) wB = true := by
    unfold candidateFullAccept
    rw [hB]
    show (decide (200 < cylinderGate imgTen (0, 0) (39, 39)) &&
        decide (combinedBlackCount (buildCombined imgTen (0, 0) (2, 2) (0, 0) (39, 39)) < 1500))
      = true
    rw [gB, bB]
    decide
  have hfa : firstAcceptedIdx imgTen (0, 0) (2, 2) [wA, wB, wC] = some 1 := by
    simp only [firstAcceptedIdx, cfaA, cfaB, Bool.false_eq_true, if_false, if_true,
      Option.map_some']
  have hmatches : ∀ t ∈ [wA, wB, wC], get_template_match imgTen t ≠ none := by
    intro t ht
    simp only [List.mem_cons, List.not_mem_nil, or_false] at ht
    rcases ht with rfl | rfl | rfl
    · simp [hA]
    · simp [hB]
    · simp [hC]
  have h := C2_selection_order imgTen (0, 0) (2, 2) [wA, wB, wC] hmatches
  rw [hfa] at h
  simpa [idxRange] using h

/-- Counterexample for C2 as stated: on the all-black photograph only the
second candidate's dark-pixel gate passes, yet the second candidate is not
selected (its combined canvas has 1521 near-black pixels, at least 1500) and
the third candidate is evaluated anyway: the scan returns no selection after
evaluating all three candidates. -/
theorem C2_gate_pass_not_selected :
    gatePasses imgZ tR = false ∧ gatePasses imgZ tL1 = true ∧ gatePasses imgZ tL2 = false ∧
    processFile imgZ tCut [tR, tL1, tL2] = some ([0, 1, 2], none) := by
  have hcut : get_template_match imgZ tCut = some ⟨(0, 0), (2, 2)⟩ :=
    match_const_tpl imgZ 2 2 0 (by decide) (by decide)
  have hR : get_template_match imgZ tR = some ⟨(0, 0), (2, 2)⟩ :=
    match_const_tpl imgZ 2 2 0 (by decide) (by decide)
  have hL1 : get_template_match imgZ tL1 = some ⟨(0, 0), (39, 39)⟩ :=
    match_const_tpl imgZ 39 39 0 (by decide) (by decide)
  have hL2 : get_template_match imgZ tL2 = some ⟨(0, 0), (4, 2)⟩ :=
    match_const_tpl imgZ 4 2 0 (by decide) (by decide)
  have gR : cylinderGate imgZ (0, 0) (2, 2) = 4 := by
    unfold cylinderGate
    rw [check_decomp]
    decide
  have gL1 : cylinderGate imgZ (0, 0) (39, 39) = 1521 := by
    unfold cylinderGate
    rw [check_decomp]
    decide
  have gL2 : cylinderGate imgZ (0, 0) (4, 2) = 8 := by
    unfold cylinderGate
    rw [check_decomp]
    decide
  have bL1 : combinedBlackCount (buildCombined imgZ (0, 0) (2, 2) (0, 0) (39, 39)) = 1521 := by
    unfold combinedBlackCount
    rw [check_decomp]
    decide
  have cfaR : candidateFullAccept imgZ (0, 0) (2, 2) tR = false := by decide
  have cfaL1 : candidateFullAccept imgZ (0, 0) (2, 2) tL1 = false := by
    unfold candidateFullAccept
    rw [hL1]
    show (decide (200 < cylinderGate imgZ (0, 0) (39, 39)) &&
        decide (combinedBlackCount (buildCombined imgZ (0, 0) (2, 2) (0, 0) (39, 39)) < 1500))
      = false
    rw [gL1, bL1]
    decide
  have cfaL2 : candidateFullAccept imgZ (0, 0) (2, 2) tL2 = false := by decide
  have hfa : firstAcceptedIdx imgZ (0, 0) (2, 2) [tR, tL1, tL2] = none := by
    simp only [firstAcceptedIdx, cfaR, cfaL1, cfaL2, Bool.false_eq_true, if_false,
      Option.map_none']
  have hmatches : ∀ t ∈ [tR, tL1, tL2], get_template_match imgZ t ≠ none := by
    intro t ht
    simp only [List.mem_cons, List.not_mem_nil, or_false] at ht
    rcases ht with rfl | rfl | rfl
    · simp [hR]
    · simp [hL1]
    · simp [hL2]
  have hspec := selectCylinderAux_spec imgZ (0, 0) (2, 2) [tR, tL1, tL2] 0 hmatches
  rw [hfa] at hspec
  refine ⟨?_, ?_, ?_, ?_⟩
  · unfold gatePasses
    rw [hR]
    show decide (200 < cylinderGate imgZ (0, 0) (2, 2)) = false
    rw [gR]
    decide
  · unfold gatePasses
    rw [hL1]
    show decide (200 < cylinderGate imgZ (0, 0) (39, 39)) = true
    rw [gL1]
    decide
  · unfold gatePasses
    rw [hL2]
    show decide (200 < cylinderGate imgZ (0, 0) (4, 2)) = false
    rw [gL2]
    decide
  · unfold processFile
    rw [hcut]
    show selectCylinder imgZ (0, 0) (2, 2) [tR, tL1, tL2] = some ([0, 1, 2], none)
    unfold selectCylinder
    rw [hspec]
    simp [idxRange]

/-- C3 (corrected). With combining enabled, valid ratios and a consistent
count/ratio assignment, the startup validation tests the splits in source
order (train, then val, then test); for each split whose ratio is strictly
between 0 and 1 and whose predecessors' ceiling checks pass, it aborts with
that split's ceiling diagnostic exactly when the split's exact value
(count / ratio) * (1 - ratio) exceeds the split's ceiling — 48 for train, 6
for val, 6 for test — with no rounding; the boundary examples behave as the
spec demands: train_set 48 at ratio 0.5 passes, train_set 49 at ratio 0.5
aborts. -/
theorem C3_ceiling_formula :
    (∀ a : Args, a.noCombine = false → ¬ratioInvalid a → ¬comboInvalid a →
      0 < a.rTrain → a.rTrain < 1 →
      (mainChecks a = some "Train set size is too large, exiting..." ↔
        (a.nTrain : ℚ) / a.rTrain * (1 - a.rTrain) > 48)) ∧
    (∀ a : Args, a.noCombine = false → ¬ratioInvalid a → ¬comboInvalid a →
      ¬trainTooLarge a → 0 < a.rVal → a.rVal < 1 →
      (mainChecks a = some "Validation set size is too large, exiting..." ↔
        (a.nVal : ℚ) / a.rVal * (1 - a.rVal) > 6)) ∧
    (∀ a : Args, a.noCombine = false → ¬ratioInvalid a → ¬comboInvalid a →
      ¬trainTooLarge a → ¬valTooLarge a → 0 < a.rTest → a.rTest < 1 →
      (mainChecks a = some "Test set size is too large, exiting..." ↔
        (a.nTest : ℚ) / a.rTest * (1 - a.rTest) > 6)) ∧
    mainChecks args48 = none ∧
    mainChecks args49 = some "Train set size is too large, exiting..." := by
  refine ⟨?_, ?_, ?_, ?_, ?_⟩
  · intro a hnc hri hci h0 h1
    unfold mainChecks
    rw [if_neg hri, if_neg hci]
    constructor
    · intro hsome
      by_cases htl : trainTooLarge a
      · exact htl.2.2.2
      · rw [if_neg htl] at hsome
        by_cases hvl : valTooLarge a
        · rw [if_pos hvl] at hsome
          exact absurd (Option.some.inj hsome) (by decide)
        · rw [if_neg hvl] at hsome
          by_cases hte : testTooLarge a
          · rw [if_pos hte] at hsome
            exact absurd (Option.some.inj hsome) (by decide)
          · rw [if_neg hte] at hsome
            exact absurd hsome (by simp)
    · intro hform
      have htl : trainTooLarge a := ⟨hnc, h1, ne_of_gt h0, hform⟩
      rw [if_pos htl]
  · intro a hnc hri hci hnt h0 h1
    unfold mainChecks
    rw [if_neg hri, if_neg hci, if_neg hnt]
    constructor
    · intro hsome
      by_cases hvl : valTooLarge a
      · exact hvl.2.2.2
      · rw [if_neg hvl] at hsome
        by_cases hte : testTooLarge a
        · rw [if_pos hte] at hsome
          exact absurd (Option.some.inj hsome) (by decide)
        · rw [if_neg hte] at hsome
          exact absurd hsome (by simp)
    · intro hform
      have hvl : valTooLarge a := ⟨hnc, h1, ne_of_gt h0, hform⟩
      rw [if_pos hvl]
  · intro a hnc hri hci hnt hnv h0 h1
    unfold mainChecks
    rw [if_neg hri, if_neg hci, if_neg hnt, if_neg hnv]
    constructor
    · intro hsome
      by_cases hte : testTooLarge a
      · exact hte.2.2.2
      · rw [if_neg hte] at hsome
        exact absurd hsome (by simp)
    · intro hform
      have hte : testTooLarge a := ⟨hnc, h1, ne_of_gt h0, hform⟩
      rw [if_pos hte]
  · unfold mainChecks
    rw [if_neg (by norm_num [ratioInvalid, args48]),
      if_neg (by norm_num [comboInvalid, args48, Xor']),
      if_neg (by norm_num [trainTooLarge, args48]),
      if_neg (by norm_num [valTooLarge, args48]),
      if_neg (by norm_num [testTooLarge, args48])]
  · unfold mainChecks
    rw [if_neg (by norm_num [ratioInvalid, args49]),
      if_neg (by norm_num [comboInvalid, args49, Xor']),
      if_pos (by norm_num [trainTooLarge, args49])]

/-- Witness for C3: the three abort-iff statements instantiated at concrete
arguments exercising each split in turn — train_set 49 at ratio 0.5,
val_set 7 at ratio 0.5, test_set 13 at ratio 0.5. -/
theorem C3_ceiling_formula_witness :
    (mainChecks args49 = some "Train set size is too large, exiting..." ↔
      (args49.nTrain : ℚ) / args49.rTrain * (1 - args49.rTrain) > 48) ∧
    (mainChecks argsV = some "Validation set size is too large, exiting..." ↔
      (argsV.nVal : ℚ) / argsV.rVal * (1 - argsV.rVal) > 6) ∧
    (mainChecks argsT = some "Test set size is too large, exiting..." ↔
      (argsT.nTest : ℚ) / argsT.rTest * (1 - argsT.rTest) > 6) :=
  ⟨C3_ceiling_formula.1 args49 rfl (by norm_num [ratioInvalid, args49])
      (by norm_num [comboInvalid, args49, Xor']) (by norm_num [args49]) (by norm_num [args49]),
    C3_ceiling_formula.2.1 argsV rfl (by norm_num [ratioInvalid, argsV])
      (by norm_num [comboInvalid, argsV, Xor']) (by norm_num [trainTooLarge, argsV])
      (by norm_num [argsV]) (by norm_num [argsV]),
    C3_ceiling_formula.2.2.1 argsT rfl (by norm_num [ratioInvalid, argsT])
      (by norm_num [comboInvalid, argsT, Xor']) (by norm_num [trainTooLarge, argsT])
      (by norm_num [valTooLarge, argsT]) (by norm_num [argsT]) (by norm_num [argsT])⟩

/-- Counterexample for C3 as stated: at train_set 145, train_ratio 0.75 the
spec formula round(count / ratio) - count equals 48, within the ceiling, yet
the program aborts with the ceiling diagnostic, because the code tests the
exact value 145 / 0.75 * 0.25 = 48.333..., which exceeds 48. -/
theorem C3_round_formula_refuted :
    mainChecks args145 = some "Train set size is too large, exiting..." ∧
    round ((145 : ℚ) / (3 / 4)) - 145 ≤ 48 := by
  constructor
  · unfold mainChecks
    rw [if_neg (by norm_num [ratioInvalid, args145]),
      if_neg (by norm_num [comboInvalid, args145, Xor']),
      if_pos (by norm_num [trainTooLarge, args145])]
  · have hsum : ((145 : ℚ) / (3 / 4) + 1 / 2) = 1163 / 6 := by norm_num
    rw [round_eq, hsum]
    have h193 : ⌊(1163 / 6 : ℚ)⌋ = 193 := by
      rw [Int.floor_eq_iff]
      norm_num
    rw [h193]
    norm_num

/-- C4 (corrected). Whenever the startup validation rejects the arguments,
the process prints the diagnostic and terminates before any generation or
assembly step — but with exit status 0, not a nonzero status: python exit()
with no argument raises SystemExit(None). -/
theorem C4_abort_behavior (a : Args) (needRegen : Bool) (msg : String)
    (h : mainChecks a = some msg) :
    runMain a needRegen =
      [MainStep.printMsg "Creating Synthetic data directories", MainStep.createDirs,
        MainStep.printMsg msg, MainStep.exitProgram 0] ∧
    (∀ n, MainStep.generateData n ∉ runMain a needRegen) ∧
    MainStep.assembleDataset ∉ runMain a needRegen := by
  have hr : runMain a needRegen =
      [MainStep.printMsg "Creating Synthetic data directories", MainStep.createDirs,
        MainStep.printMsg msg, MainStep.exitProgram 0] := by
    unfold runMain
    rw [h]
    rfl
  refine ⟨hr, ?_, ?_⟩
  · intro n
    rw [hr]
    simp
  · rw [hr]
    simp

/-- Witness for C4 at a concrete inconsistent count/ratio configuration. -/
theorem C4_abort_behavior_witness :
    runMain argsBadCombo true =
      [MainStep.printMsg "Creating Synthetic data directories", MainStep.createDirs,
        MainStep.printMsg "Invalid set size, ratio combination, exiting...",
        MainStep.exitProgram 0] ∧
    (∀ n, MainStep.generateData n ∉ runMain argsBadCombo true) ∧
    MainStep.assembleDataset ∉ runMain argsBadCombo true :=
  C4_abort_behavior argsBadCombo true "Invalid set size, ratio combination, exiting..."
    (by
      unfold mainChecks
      rw [if_neg (by norm_num [ratioInvalid, argsBadCombo]),
        if_pos (by norm_num [comboInvalid, argsBadCombo, Xor'])])

/-- Counterexample for C4 as stated: on an out-of-range ratio the process
prints the diagnostic and exits, but every exit in the trace carries status
0, refuting the claimed nonzero exit status. -/
theorem C4_exit_status_zero :
    runMain argsBadRatio true =
      [MainStep.printMsg "Creating Synthetic data directories", MainStep.createDirs,
        MainStep.printMsg "Invalid ratio, exiting...", MainStep.exitProgram 0] ∧
    ∀ c, MainStep.exitProgram c ∈ runMain argsBadRatio true → c = 0 := by
  have hmc : mainChecks argsBadRatio = some "Invalid ratio, exiting..." := by
    unfold mainChecks
    rw [if_pos (by norm_num [ratioInvalid, argsBadRatio])]
  have hr : runMain argsBadRatio true =
      [MainStep.printMsg "Creating Synthetic data directories", MainStep.createDirs,
        MainStep.printMsg "Invalid ratio, exiting...", MainStep.exitProgram 0] := by
    unfold runMain
    rw [hmc]
    rfl
  refine ⟨hr, ?_⟩
  intro c hc
  rw [hr] at hc
  simp at hc
  exact hc

/-- C5 (confirmed). For every class other than fail_label_half_printed,
when the label does not fit in the label-bearing region minus the 15-pixel
margins (horizontally or vertically), the placement step fails for every
draw of the random generator (random.randint raises on an empty range); the
offset is never clamped into range. -/
theorem C5_placement_error (className : String)
    (filterImgW wFilter hFilter wLabel hLabel : ℤ)
    (hcls : className ≠ "fail_label_half_printed")
    (hfit : wFilter - wLabel - pixToEdge < pixToEdge ∨
      hFilter - hLabel - pixToEdge < pixToEdge) :
    ∀ drawX drawY : ℕ,
      placeLabel className filterImgW wFilter hFilter wLabel hLabel drawX drawY = none := by
  intro dx dy
  unfold placeLabel pyRandint
  rw [if_neg hcls]
  rcases hfit with hx | hy
  · rw [if_pos hx]
  · by_cases hx : wFilter - wLabel - pixToEdge < pixToEdge
    · rw [if_pos hx]
    · rw [if_neg hx, if_pos hy]

/-- Witness for C5: a 10-wide label cannot be placed in a 20-wide region
with 15-pixel margins. -/
theorem C5_placement_error_witness :
    placeLabel "no_fail" 100 20 100 10 10 0 0 = none :=
  C5_placement_error "no_fail" 100 20 100 10 10 (by decide) (Or.inl (by decide)) 0 0

/-- C6 (confirmed). The Label Extractor accepts a crop exactly when its
count of pixels below intensity 220 lies strictly between 1000 and 3000;
counts of exactly 1000 and exactly 3000 are rejected, 1001 and 2999 are
accepted. -/
theorem C6_label_gate :
    (∀ box : Img, labelBoxAccept box = true ↔
      1000 < labelDarkCount box ∧ labelDarkCount box < 3000) ∧
    labelDarkCount box1000 = 1000 ∧ labelBoxAccept box1000 = false ∧
    labelDarkCount box3000 = 3000 ∧ labelBoxAccept box3000 = false ∧
    labelDarkCount box1001 = 1001 ∧ labelBoxAccept box1001 = true ∧
    labelDarkCount box2999 = 2999 ∧ labelBoxAccept box2999 = true := by
  have d1000 : labelDarkCount box1000 = 1000 := by
    unfold labelDarkCount
    rw [check_decomp]
    decide
  have d3000 : labelDarkCount box3000 = 3000 := by
    unfold labelDarkCount
    rw [check_decomp]
    decide
  have d1001 : labelDarkCount box1001 = 1001 := by
    unfold labelDarkCount
    rw [check_decomp]
    decide
  have d2999 : labelDarkCount box2999 = 2999 := by
    unfold labelDarkCount
    rw [check_decomp]
    decide
  refine ⟨?_, d1000, ?_, d3000, ?_, d1001, ?_, d2999, ?_⟩
  · intro box
    unfold labelBoxAccept
    simp only [Bool.and_eq_true, decide_eq_true_eq]
    exact and_comm
  · unfold labelBoxAccept
    rw [d1000]
    decide
  · unfold labelBoxAccept
    rw [d3000]
    decide
  · unfold labelBoxAccept
    rw [d1001]
    decide
  · unfold labelBoxAccept
    rw [d2999]
    decide

/-- C7 (confirmed). Each pixel of the Compositor's content mask is 1 exactly
when the greyscale intensity lies strictly between 120 and 220; on a
constant-intensity crop the mask is all-ones inside the band and all-zeros
outside it. -/
theorem C7_mask_band :
    (∀ (img : Img) (x y : ℕ), x < img.width → y < img.height →
      ((find_mask img labelBandCond).pix x y = 1 ↔
        120 < img.pix x y ∧ img.pix x y < 220)) ∧
    (∀ w h c x y : ℕ, 120 < c → c < 220 → x < w → y < h →
      (find_mask (imageNew w h c) labelBandCond).pix x y = 1) ∧
    (∀ w h c x y : ℕ, c ≤ 120 ∨ 220 ≤ c → x < w → y < h →
      (find_mask (imageNew w h c) labelBandCond).pix x y = 0) := by
  refine ⟨?_, ?_, ?_⟩
  · intro img x y _ _
    by_cases hband : 120 < img.pix x y ∧ img.pix x y < 220
    · have hc : labelBandCond (img.pix x y) = true := by
        unfold labelBandCond
        simp [hband.1, hband.2]
      simp [find_mask, hc, hband]
    · have hc : labelBandCond (img.pix x y) = false := by
        unfold labelBandCond
        simp only [Bool.and_eq_false_iff, decide_eq_false_iff_not, not_lt]
        omega
      simp [find_mask, hc, hband]
  · intro w h c x y h1 h2 _ _
    have hc : labelBandCond c = true := by
      unfold labelBandCond
      simp [h1, h2]
    simp [find_mask, imageNew, hc]
  · intro w h c x y hout _ _
    have hc : labelBandCond c = false := by
      unfold labelBandCond
      simp only [Bool.and_eq_false_iff, decide_eq_false_iff_not, not_lt]
      omega
    simp [find_mask, imageNew, hc]

/-- Witness for C7 at a 2 by 2 crop of constant intensity 150. -/
theorem C7_mask_band_witness :
    (find_mask (imageNew 2 2 150) labelBandCond).pix 0 0 = 1 :=
  C7_mask_band.2.1 2 2 150 0 0 (by decide) (by decide) (by decide) (by decide)

/-- C10 (corrected). For every per-class sample count from 1 to 3, the
nested loops of generate_synthetic_data read a subset_filters index at or
beyond the drawn array's length, so the generation fails with an
IndexError; the claim's range must exclude 0, where no access happens. -/
theorem C10_index_overflow (n : ℕ) (h1 : 1 ≤ n) (h3 : n ≤ 3) :
    (∃ k ∈ filterAccessIndices n, subsetFiltersLen n ≤ k) ∧
      filterAccessesOk n = false := by
  interval_cases n
  · exact ⟨by decide, by decide⟩
  · exact ⟨by decide, by decide⟩
  · exact ⟨by decide, by decide⟩

/-- Witness for C10 at n_data = 1. -/
theorem C10_index_overflow_witness :
    (∃ k ∈ filterAccessIndices 1, subsetFiltersLen 1 ≤ k) ∧
      filterAccessesOk 1 = false :=
  C10_index_overflow 1 (by decide) (by decide)

/-- Counterexample for C10 as stated: at n_data = 0 the loops perform no
subset_filters access at all, so no index reaches the array length and the
operation does not fail. -/
theorem C10_zero_request :
    filterAccessIndices 0 = [] ∧ filterAccessesOk 0 = true :=
  ⟨by decide, by decide⟩

end SynthData
